import Mathlib

/-
Verification of the connection framework in krita_stable_diffusion/connect.py.

Shallow embedding: each method relevant to a claim is translated into a pure
Lean function over an explicit state record.  Queues are lists (front of the
list is the front of the queue), the blocking queue get of a worker loop is
modelled by running the loop over the current finite queue contents, and
socket and backend side effects are recorded in traces or supplied as
outcome parameters.
-/

/-- Model of a parsed JSON document as produced by json.loads: null, booleans,
numbers (modelled as integers), strings, arrays and objects. -/
inductive Json where
  | null
  | bool (b : Bool)
  | num (n : Int)
  | str (s : String)
  | arr (elems : List Json)
  | obj (fields : List (String × Json))

/-- Lookup of a key in a JSON object.  json.loads builds a Python dict, where a
later duplicate key overrides an earlier one, so the LAST binding wins. -/
def lookupLast (k : String) : List (String × Json) → Option Json
  | [] => none
  | (k0, v) :: fields =>
    match lookupLast k fields with
    | some v0 => some v0
    | none => if k0 = k then some v else none

/-- Python equality test between a JSON value and a string literal, as in
the source expression data["type"] == "txt2img": true exactly when the value
is that string. -/
def jsonIsStr (j : Json) (s : String) : Bool :=
  match j with
  | .str t => t == s
  | _ => false

/-- One lowercase hexadecimal digit, for the \uXXXX escapes of json.dumps. -/
def hexDigit (n : Nat) : Char :=
  if n < 10 then Char.ofNat (48 + n) else Char.ofNat (87 + n)

/-- Four lowercase hexadecimal digits, for the \uXXXX escapes of json.dumps. -/
def hex4 (n : Nat) : String :=
  String.mk [hexDigit (n / 4096 % 16), hexDigit (n / 256 % 16),
             hexDigit (n / 16 % 16), hexDigit (n % 16)]

/-- Escape one character for a JSON string literal exactly as json.dumps does
with its default ensure_ascii=True: quote and backslash get a backslash
escape, the control characters backspace, tab, newline, formfeed and carriage
return get their short escapes, every other printable ASCII character (code
32 to 126) stands for itself, and everything else becomes \uXXXX in lowercase
hexadecimal, with a surrogate pair for code points above ffff. -/
def escapeChar (c : Char) : String :=
  if c = '"' then "\\\""
  else if c = '\\' then "\\\\"
  else if c = '\n' then "\\n"
  else if c = '\r' then "\\r"
  else if c = '\t' then "\\t"
  else if c.toNat = 8 then "\\b"
  else if c.toNat = 12 then "\\f"
  else if 32 ≤ c.toNat ∧ c.toNat ≤ 126 then String.singleton c
  else if c.toNat < 65536 then "\\u" ++ hex4 c.toNat
  else
    "\\u" ++ hex4 (55296 + (c.toNat - 65536) / 1024)
      ++ "\\u" ++ hex4 (56320 + (c.toNat - 65536) % 1024)

/-- Escape a string for a JSON string literal. -/
def escapeString (s : String) : String :=
  String.join (s.toList.map escapeChar)

/-- Quote a string as a JSON string literal. -/
def quoteString (s : String) : String :=
  "\"" ++ escapeString s ++ "\""

mutual

/-- Model of json.dumps with its default separators. -/
def jsonSerialize : Json → String
  | .null => "null"
  | .bool true => "true"
  | .bool false => "false"
  | .num n => toString n
  | .str s => quoteString s
  | .arr xs => "[" ++ jsonSerializeElems xs ++ "]"
  | .obj fs => "\x7b" ++ jsonSerializeFields fs ++ "\x7d"

/-- Serialize the elements of a JSON array, separated by comma and space. -/
def jsonSerializeElems : List Json → String
  | [] => ""
  | [x] => jsonSerialize x
  | x :: xs => jsonSerialize x ++ ", " ++ jsonSerializeElems xs

/-- Serialize the fields of a JSON object, separated by comma and space. -/
def jsonSerializeFields : List (String × Json) → String
  | [] => ""
  | [(k, v)] => quoteString k ++ ": " ++ jsonSerialize v
  | (k, v) :: fs => quoteString k ++ ": " ++ jsonSerialize v ++ ", " ++ jsonSerializeFields fs

end

/-- A Python value returned by a backend sample call: None, a bytes object,
a string or an integer.  The dispatcher only distinguishes None and the
empty bytes object from everything else. -/
inductive PyVal where
  | pynone
  | pybytes (bs : List Nat)
  | pystr (s : String)
  | pyint (n : Int)
deriving DecidableEq, Repr

/-- The compute backend collaborator (self.sdrunner): the two capabilities the
dispatcher invokes.  It is external to the repository, so it is a parameter. -/
structure SDRunner where
  txt2img_sample : Json → PyVal
  img2img_sample : Json → PyVal

/-- One recorded invocation of a backend capability, together with the exact
options argument it was passed. -/
inductive BackendCall where
  | txt2img (options : Json)
  | img2img (options : Json)

/-- Ways the dispatcher body can raise: json.loads fails on the raw bytes,
subscripting a non dict JSON document raises TypeError, or a missing key
raises KeyError. -/
inductive DispatchError where
  | parseError
  | typeSubscriptError
  | keyError (k : String)
deriving DecidableEq, Repr

/-- The effects of one dispatcher callback invocation: the backend calls it
made, in order, and the values it put on the response queue, in order. -/
structure DispatchResult where
  calls : List BackendCall
  pushed : List PyVal

/-- Model of the source guard "if response is not None and response != b''":
the singleton push to the response queue happens exactly when the result is
neither None nor the empty bytes object. -/
def pushResult (response : PyVal) : List PyVal :=
  if response ≠ PyVal.pynone ∧ response ≠ PyVal.pybytes [] then [response] else []

namespace StableDiffusionRequestQueueWorker

/-- StableDiffusionRequestQueueWorker.callback (connect.py lines 900 to 912).
The argument parsed is the outcome of data.decode followed by json.loads on
the raw message: none when decoding or parsing raises, otherwise the parsed
document.  data["type"] on a non object document raises TypeError; a missing
key raises KeyError.  The comparisons data["type"] == "txt2img" and
data["type"] == "img2img" are Python equality with a string.  The matching
sample capability is invoked with data["options"] unmodified, and the result
is pushed to the response queue exactly when it is neither None nor b''.
Any raise escapes to the caller; the try block of the server worker that
catches it is modelled separately below. -/
def callback (runner : SDRunner) (parsed : Option Json) :
    Except DispatchError DispatchResult :=
  match parsed with
  | none => .error .parseError
  | some (Json.obj fields) =>
    match lookupLast "type" fields with
    | none => .error (.keyError "type")
    | some ty =>
      if jsonIsStr ty "txt2img" then
        match lookupLast "options" fields with
        | none => .error (.keyError "options")
        | some options =>
          let response := runner.txt2img_sample options
          .ok ⟨[.txt2img options], pushResult response⟩
      else if jsonIsStr ty "img2img" then
        match lookupLast "options" fields with
        | none => .error (.keyError "options")
        | some options =>
          let response := runner.img2img_sample options
          .ok ⟨[.img2img options], pushResult response⟩
      else
        .ok ⟨[], []⟩
  | some _ => .error .typeSubscriptError

end StableDiffusionRequestQueueWorker

/-- How a worker loop run over the current finite queue contents ends:
it exits its loop through break, it is blocked in a queue get on an empty
queue, or it is still looping (sleeping and polling) with nothing to do. -/
inductive RunEnd where
  | exited
  | blocked
  | looping
deriving DecidableEq, Repr

/-- An item in a server side queue: the reserved sentinel string "quit" or an
ordinary message payload (raw bytes, modelled opaquely by a number). -/
inductive SMsg where
  | sentinel
  | msg (payload : Nat)
deriving DecidableEq, Repr

namespace SocketServer

/-- The server state read and written by SocketServer.try_quit: the quit
event, the response queue, the inbound queue (self.queue), and whether an
accepted connection object currently exists (self.soc_connection is not
None).  The response queue holds Python values: the backend results the
dispatcher pushes (bytes or anything else the backend returns) and the
sentinel string "quit" pushed here by try_quit, modelled as
PyVal.pystr "quit". -/
structure QuitState where
  quitEvent : Bool
  responseQueue : List PyVal
  inboundQueue : List SMsg
  socConnection : Bool

/-- One observable step taken by try_quit, in program order. -/
inductive WatchAction where
  | setQuit
  | pushResponseSentinel
  | closeConnection
  | pushInboundSentinel
deriving DecidableEq, Repr

/-- Result of one try_quit poll: the new state, the ordered trace of steps
taken, and the returned value self.quit_event.is_set(). -/
structure TryQuitOut where
  state : QuitState
  trace : List WatchAction
  returned : Bool

/-- SocketServer.try_quit (connect.py lines 328 to 348).  The psutil loop
over the process table sets has_krita_process exactly when the monitored pid
is present.  When it is absent the method, in order, sets the quit event,
puts "quit" on the response queue, closes and clears the accepted connection
if one exists, and puts "quit" on the inbound queue (the guard
"if self.queue" is always true: a SimpleQueue object is truthy).  It performs
no socket send or receive.  It returns self.quit_event.is_set(). -/
def try_quit (processTable : List Nat) (pid : Nat) (st : QuitState) : TryQuitOut :=
  if pid ∈ processTable then
    ⟨st, [], st.quitEvent⟩
  else
    let st1 : QuitState := { st with quitEvent := true }
    let st2 : QuitState :=
      { st1 with responseQueue := st1.responseQueue ++ [PyVal.pystr "quit"] }
    let st3 : QuitState :=
      if st2.socConnection then { st2 with socConnection := false } else st2
    let closeTrace : List WatchAction :=
      if st2.socConnection then [WatchAction.closeConnection] else []
    let st4 : QuitState := { st3 with inboundQueue := st3.inboundQueue ++ [SMsg.sentinel] }
    ⟨st4,
     [WatchAction.setQuit, WatchAction.pushResponseSentinel] ++ closeTrace
       ++ [WatchAction.pushInboundSentinel],
     st4.quitEvent⟩

end SocketServer

namespace SimpleEnqueueSocketServer

/-- The dispatcher facing server state touched when the worker hands one
dequeued message to the callback: the connection flag, the response queue and
a count of errors logged by the except branch. -/
structure DispatchState where
  hasConnection : Bool
  responseQueue : List PyVal
  loggedErrors : Nat

/-- The try block of SimpleEnqueueSocketServer.worker (connect.py lines 881
to 885) around one dequeued message: the callback of
StableDiffusionRequestQueueWorker either completes, appending its pushes to
the response queue, or raises, in which case the except branch logs the error
and the loop continues with all other state unchanged. -/
def handleOne (runner : SDRunner) (st : DispatchState) (parsed : Option Json) :
    DispatchState :=
  match StableDiffusionRequestQueueWorker.callback runner parsed with
  | .error _ => { st with loggedErrors := st.loggedErrors + 1 }
  | .ok r => { st with responseQueue := st.responseQueue ++ r.pushed }

/-- Result of running SimpleEnqueueSocketServer.worker over the current queue
contents: how the loop ended, the dequeued items handed to the callback in
order, and the part of the queue it never consumed. -/
structure ServerWorkerOut where
  outcome : RunEnd
  calls : List SMsg
  remaining : List SMsg
deriving DecidableEq, Repr

/-- SimpleEnqueueSocketServer.worker (connect.py lines 871 to 888), run over
the current finite queue contents with the connection flag and quit event
held fixed (nothing in this worker changes them).  Each iteration: when a
client is connected it performs a blocking queue get and passes the dequeued
item to the callback inside a try block whose except branch only logs; there
is NO comparison of the item against the sentinel, so every item, the
sentinel included, is forwarded.  Only then does it test the quit event and
break.  With no connection it skips the get and just tests the quit event. -/
def workerRun (hasConnection quitEvent : Bool) : List SMsg → ServerWorkerOut
  | [] =>
    if hasConnection then ⟨.blocked, [], []⟩
    else if quitEvent then ⟨.exited, [], []⟩
    else ⟨.looping, [], []⟩
  | m :: rest =>
    if hasConnection then
      if quitEvent then ⟨.exited, [m], rest⟩
      else
        let r := workerRun hasConnection quitEvent rest
        ⟨r.outcome, m :: r.calls, r.remaining⟩
    else if quitEvent then ⟨.exited, [], m :: rest⟩
    else ⟨.looping, [], m :: rest⟩

end SimpleEnqueueSocketServer

/-- An item in the client inbound queue: the reserved sentinel string "quit"
(only ever put there by SimpleEnqueueSocketClient.quit) or an ordinary
message payload.  The Python comparison msg == "quit" is true only for the
sentinel string itself, never for raw bytes. -/
inductive CMsg where
  | sentinel
  | msg (payload : Nat)
deriving DecidableEq, Repr

/-- Outcome of self.soc.sendall for one outbound message, covering the whole
try body of the client callback: success, a BrokenPipeError, or any other
exception (a json.dumps failure on an unserializable payload lands here,
since it is Exception class but not BrokenPipeError). -/
inductive SendOutcome where
  | success
  | brokenPipe
  | otherError
deriving DecidableEq, Repr

namespace SimpleEnqueueSocketClient

/-- The client state touched by the outbound send path: the failed message
list self._failed_messages, the connection flag self.has_connection, the
number of initialize_socket calls, the messages accepted by sendall, and the
number of errors logged by the generic except branch. -/
structure ClientState where
  failedMessages : List Nat
  hasConnection : Bool
  socketInits : Nat
  wire : List Nat
  loggedCallbackErrors : Nat
deriving DecidableEq, Repr

/-- SimpleEnqueueSocketClient.callback (connect.py lines 755 to 772).  The
try body serializes the message and calls sendall; its outcome is supplied by
the outcome parameter.  On success the message reaches the wire.  On
BrokenPipeError the message is appended to _failed_messages, has_connection
is set False, disconnect closes the socket and initialize_socket creates a
fresh one.  On any other exception the error is printed and nothing else
happens. -/
def callback (outcome : Nat → SendOutcome) (st : ClientState) (message : Nat) :
    ClientState :=
  match outcome message with
  | .success => { st with wire := st.wire ++ [message] }
  | .brokenPipe =>
    { st with
        failedMessages := st.failedMessages ++ [message],
        hasConnection := false,
        socketInits := st.socketInits + 1 }
  | .otherError => { st with loggedCallbackErrors := st.loggedCallbackErrors + 1 }

/-- The for loop of SimpleEnqueueSocketClient.retry_messages.  The Python
statement failed_messages = self._failed_messages creates an ALIAS, not a
copy, so the loop iterates by an internal index over the very list it
mutates: each iteration reads the element now at the index, removes the first
equal element from the list, and only then calls the send callback (which on
BrokenPipeError appends the message back).  The fuel argument is an upper
bound on the number of iterations; the loop stops as soon as the index
reaches the current list length. -/
def retryAux (outcome : Nat → SendOutcome) : Nat → Nat → ClientState → ClientState
  | 0, _, st => st
  | fuel + 1, i, st =>
    if h : i < st.failedMessages.length then
      let message := st.failedMessages.get ⟨i, h⟩
      let st1 := { st with failedMessages := st.failedMessages.erase message }
      retryAux outcome fuel (i + 1) (callback outcome st1 message)
    else st

/-- SimpleEnqueueSocketClient.retry_messages (connect.py lines 740 to 753).
Each loop iteration shortens the list by one before the callback can append
at most one element back, so the index catches up with the length within the
initial length plus one iterations and the fuel is never exhausted. -/
def retry_messages (outcome : Nat → SendOutcome) (st : ClientState) : ClientState :=
  retryAux outcome (st.failedMessages.length + 1) 0 st

/-- Result of running SimpleEnqueueSocketClient.worker over the current queue
contents: how the loop ended, the final quit event, the dequeued items handed
to the callback in order, and the part of the queue it never consumed. -/
structure WorkerOut where
  outcome : RunEnd
  quitEvent : Bool
  calls : List CMsg
  remaining : List CMsg
deriving DecidableEq, Repr

/-- SimpleEnqueueSocketClient.worker (connect.py lines 791 to 805), run over
the current finite queue contents.  Each iteration: if the quit event is set,
break; if the queue is nonempty, dequeue one item; if it equals the sentinel
string "quit", set the quit event and break WITHOUT calling the callback;
otherwise pass it to the callback (which catches all its own exceptions) and
continue. -/
def workerRun : Bool → List CMsg → WorkerOut
  | true, q => ⟨.exited, true, [], q⟩
  | false, [] => ⟨.looping, false, [], []⟩
  | false, CMsg.sentinel :: rest => ⟨.exited, true, [], rest⟩
  | false, CMsg.msg m :: rest =>
    let r := workerRun false rest
    ⟨r.outcome, r.quitEvent, CMsg.msg m :: r.calls, r.remaining⟩

end SimpleEnqueueSocketClient

namespace StableDiffusionRequestQueueWorker

/-- The state touched by the response sender: the serialized payloads
accepted by sendall on the accepted connection, the payloads whose send
raised (logged and dropped), and the class level _failed_messages list the
server inherits, which this worker never touches. -/
structure SenderState where
  wire : List String
  loggedFailures : List String
  failedMessages : List String
deriving DecidableEq, Repr

/-- How a run of the response sender over the current finite queue contents
ends: the loop exits through break, it is blocked in the queue get on an
empty queue, or the thread CRASHES on an uncaught exception. -/
inductive SenderEnd where
  | exited
  | blocked
  | crashed
deriving DecidableEq, Repr

/-- Result of running response_queue_worker over the current response queue
contents: the final state, the part of the queue it never consumed, and how
the run ended. -/
structure SenderOut where
  state : SenderState
  remaining : List PyVal
  outcome : SenderEnd
deriving DecidableEq, Repr

/-- The sentinel test of the sender loop, the source line
response == "quit": Python equality with the string "quit", true exactly for
that string value and never for bytes or other values. -/
def isQuitValue : PyVal → Bool
  | .pystr s => s == "quit"
  | _ => false

/-- What json.dumps can do with a drained backend result: None, strings and
integers map to their JSON forms; a bytes object is NOT JSON serializable,
so json.dumps raises TypeError on it (none here). -/
def pyToJson : PyVal → Option Json
  | .pynone => some Json.null
  | .pybytes _ => none
  | .pystr s => some (Json.str s)
  | .pyint n => some (Json.num n)

/-- The wrapping json.dumps applies to each result before sending:
the object with the single field "response". -/
def wrapResponse (v : Json) : Json :=
  Json.obj [("response", v)]

/-- The source expression json.dumps with the "response" wrapper applied to a
drained result: the serialized payload when the result is serializable, none
when json.dumps raises TypeError. -/
def serializeResponse (v : PyVal) : Option String :=
  (pyToJson v).map (fun j => jsonSerialize (wrapResponse j))

/-- StableDiffusionRequestQueueWorker.response_queue_worker (connect.py lines
914 to 932), run over the current finite response queue contents with the
quit event held fixed.  Each iteration: blocking get; a value equal to the
sentinel string "quit" breaks the loop; otherwise the result is wrapped as
the "response" object and passed to json.dumps.  That json.dumps call (line
924) stands OUTSIDE the try block, so when the result is not JSON
serializable (a bytes result in particular) the TypeError it raises is
caught by nothing: the worker thread dies, nothing is sent or logged, and
the rest of the queue is never drained.  When serialization succeeds, the
guard "res is not None and res != b''" is always true for the resulting str,
and sendall is attempted exactly once inside a try block: on failure the
error is logged and the payload dropped.  Nothing is ever appended to a
retry list.  Then the quit event is tested. -/
def response_queue_worker (sendOk : String → Bool) (quitEvent : Bool) :
    List PyVal → SenderState → SenderOut
  | [], st => ⟨st, [], SenderEnd.blocked⟩
  | v :: rest, st =>
    if isQuitValue v then ⟨st, rest, SenderEnd.exited⟩
    else
      match pyToJson v with
      | none => ⟨st, rest, SenderEnd.crashed⟩
      | some j =>
        let res := jsonSerialize (wrapResponse j)
        let st1 :=
          if sendOk res then { st with wire := st.wire ++ [res] }
          else { st with loggedFailures := st.loggedFailures ++ [res] }
        if quitEvent then ⟨st1, rest, SenderEnd.exited⟩
        else response_queue_worker sendOk quitEvent rest st1

end StableDiffusionRequestQueueWorker

namespace Connection

/-- The statement "threads = []" in the body of class Connection (connect.py
lines 128 and 434) declares a CLASS attribute, and start_thread only ever
mutates it through self.threads.append, never assigning an instance
attribute, so in Python every instance of the class shares this single list;
an attribute read inst.threads falls through to it for every instance.  This
record is that class level state. -/
structure ClassState where
  threads : List Nat
deriving DecidableEq, Repr

/-- Connection.start_thread (connect.py lines 131 to 144) called on instance
inst: starts the thread and appends its handle to self.threads.  Because the
append mutates the shared class attribute, the instance argument cannot
influence which list grows. -/
def start_thread (env : ClassState) (_inst : Nat) (t : Nat) : ClassState :=
  ⟨env.threads ++ [t]⟩

/-- The thread registry observed by instance inst through self.threads:
attribute lookup falls through to the class attribute, for every instance. -/
def threadsOf (env : ClassState) (_inst : Nat) : List Nat :=
  env.threads

/-- The list of threads Connection.stop called on instance inst joins
(connect.py lines 180 to 197): it iterates over self.threads, that is over
the shared class attribute. -/
def stopJoins (env : ClassState) (_inst : Nat) : List Nat :=
  env.threads

end Connection

/-- C1: for every well formed request whose parsed JSON object carries a
"type" field equal to "txt2img" or "img2img" and an "options" field, the
dispatcher callback invokes exactly the matching backend capability, passing
the options value unmodified, and pushes the result onto the response queue
exactly once if and only if the result is non empty (neither None nor empty
bytes); an empty or absent result produces no response queue entry and no
error. -/
theorem claim_C1_dispatch (runner : SDRunner) (fields : List (String × Json))
    (opts : Json) (ty : String)
    (hty : lookupLast "type" fields = some (Json.str ty))
    (hopts : lookupLast "options" fields = some opts)
    (hcase : ty = "txt2img" ∨ ty = "img2img") :
    StableDiffusionRequestQueueWorker.callback runner (some (Json.obj fields)) =
      Except.ok
        ⟨[if ty = "txt2img" then BackendCall.txt2img opts else BackendCall.img2img opts],
         (fun r => if r ≠ PyVal.pynone ∧ r ≠ PyVal.pybytes [] then [r] else [])
           (if ty = "txt2img" then runner.txt2img_sample opts
            else runner.img2img_sample opts)⟩ := by
  rcases hcase with h | h <;> subst h <;>
    simp [StableDiffusionRequestQueueWorker.callback, hty, hopts, jsonIsStr, pushResult]

/-- Witness for C1 at a concrete request: type txt2img with options
containing a prompt, a backend whose txt2img capability returns the non empty
bytes value [111] and whose img2img capability returns None: exactly the
txt2img call is made with the given options and exactly one value is pushed. -/
theorem claim_C1_dispatch_witness :
    lookupLast "type"
        [("type", Json.str "txt2img"), ("options", Json.obj [("prompt", Json.str "a cat")])] =
      some (Json.str "txt2img")
  ∧ lookupLast "options"
        [("type", Json.str "txt2img"), ("options", Json.obj [("prompt", Json.str "a cat")])] =
      some (Json.obj [("prompt", Json.str "a cat")])
  ∧ StableDiffusionRequestQueueWorker.callback
        ⟨fun _ => PyVal.pybytes [111], fun _ => PyVal.pynone⟩
        (some (Json.obj
          [("type", Json.str "txt2img"), ("options", Json.obj [("prompt", Json.str "a cat")])])) =
      Except.ok
        ⟨[BackendCall.txt2img (Json.obj [("prompt", Json.str "a cat")])],
         [PyVal.pybytes [111]]⟩ := by
  refine ⟨rfl, rfl, ?_⟩
  have h := claim_C1_dispatch
    ⟨fun _ => PyVal.pybytes [111], fun _ => PyVal.pynone⟩
    [("type", Json.str "txt2img"), ("options", Json.obj [("prompt", Json.str "a cat")])]
    (Json.obj [("prompt", Json.str "a cat")]) "txt2img" rfl rfl (Or.inl rfl)
  simpa using h

/-- C10: for every well formed JSON request object whose "type" field is
neither "txt2img" nor "img2img", the dispatcher callback invokes no backend
capability, pushes nothing onto the response queue, and raises no error:
the message is silently ignored. -/
theorem claim_C10_unknown_type (runner : SDRunner) (fields : List (String × Json))
    (t : Json)
    (hty : lookupLast "type" fields = some t)
    (h1 : jsonIsStr t "txt2img" = false)
    (h2 : jsonIsStr t "img2img" = false) :
    StableDiffusionRequestQueueWorker.callback runner (some (Json.obj fields)) =
      Except.ok ⟨[], []⟩ := by
  simp [StableDiffusionRequestQueueWorker.callback, hty, h1, h2]

/-- Witness for C10 at a concrete request with type "inpaint": no backend
call, no push, no error. -/
theorem claim_C10_unknown_type_witness :
    lookupLast "type" [("type", Json.str "inpaint")] = some (Json.str "inpaint")
  ∧ jsonIsStr (Json.str "inpaint") "txt2img" = false
  ∧ jsonIsStr (Json.str "inpaint") "img2img" = false
  ∧ StableDiffusionRequestQueueWorker.callback
        ⟨fun _ => PyVal.pybytes [1], fun _ => PyVal.pybytes [2]⟩
        (some (Json.obj [("type", Json.str "inpaint")])) =
      Except.ok ⟨[], []⟩ := by
  refine ⟨rfl, rfl, rfl, ?_⟩
  exact claim_C10_unknown_type
    ⟨fun _ => PyVal.pybytes [1], fun _ => PyVal.pybytes [2]⟩
    [("type", Json.str "inpaint")] (Json.str "inpaint") rfl rfl rfl

/-- C8: for every inbound message on which the dispatcher callback raises
(not valid JSON, a non object document, or a missing required key), the
server worker does not crash and does not close the connection: the failure
is caught by the try block around the callback, one error is logged, nothing
is put on the response queue, and the connection flag is unchanged. -/
theorem claim_C8_malformed (runner : SDRunner)
    (st : SimpleEnqueueSocketServer.DispatchState) (parsed : Option Json)
    (e : DispatchError)
    (h : StableDiffusionRequestQueueWorker.callback runner parsed = .error e) :
    (SimpleEnqueueSocketServer.handleOne runner st parsed).hasConnection = st.hasConnection
  ∧ (SimpleEnqueueSocketServer.handleOne runner st parsed).responseQueue = st.responseQueue
  ∧ (SimpleEnqueueSocketServer.handleOne runner st parsed).loggedErrors =
      st.loggedErrors + 1 := by
  simp [SimpleEnqueueSocketServer.handleOne, h]

/-- Witness for C8 at a concrete malformed input: a message whose bytes are
not valid JSON (parsed = none), a connected server with an empty response
queue: connection flag still true, response queue still empty, one logged
error. -/
theorem claim_C8_malformed_witness :
    StableDiffusionRequestQueueWorker.callback
        ⟨fun _ => PyVal.pynone, fun _ => PyVal.pynone⟩ none =
      Except.error DispatchError.parseError
  ∧ ((SimpleEnqueueSocketServer.handleOne ⟨fun _ => PyVal.pynone, fun _ => PyVal.pynone⟩
        ⟨true, [], 0⟩ none).hasConnection = (true : Bool)
    ∧ (SimpleEnqueueSocketServer.handleOne ⟨fun _ => PyVal.pynone, fun _ => PyVal.pynone⟩
        ⟨true, [], 0⟩ none).responseQueue = ([] : List PyVal)
    ∧ (SimpleEnqueueSocketServer.handleOne ⟨fun _ => PyVal.pynone, fun _ => PyVal.pynone⟩
        ⟨true, [], 0⟩ none).loggedErrors = 0 + 1) := by
  exact ⟨rfl, claim_C8_malformed ⟨fun _ => PyVal.pynone, fun _ => PyVal.pynone⟩
    ⟨true, [], 0⟩ none DispatchError.parseError rfl⟩

/-- C3: whenever the watchdog poll finds the monitored host process id absent
from the process table, try_quit performs, in this order: set the quit event,
push the sentinel onto the response queue, close the accepted connection if
one exists, push the sentinel onto the inbound queue, and issues no further
socket I/O (the trace is exactly these steps); afterwards the quit event is
set and both queues contain a sentinel. -/
theorem claim_C3_watchdog (processTable : List Nat) (pid : Nat)
    (st : SocketServer.QuitState) (h : pid ∉ processTable) :
    (SocketServer.try_quit processTable pid st).state.quitEvent = true
  ∧ (SocketServer.try_quit processTable pid st).state.responseQueue =
      st.responseQueue ++ [PyVal.pystr "quit"]
  ∧ (SocketServer.try_quit processTable pid st).state.inboundQueue =
      st.inboundQueue ++ [SMsg.sentinel]
  ∧ (SocketServer.try_quit processTable pid st).state.socConnection = false
  ∧ (SocketServer.try_quit processTable pid st).trace =
      [SocketServer.WatchAction.setQuit, SocketServer.WatchAction.pushResponseSentinel]
        ++ (if st.socConnection then [SocketServer.WatchAction.closeConnection] else [])
        ++ [SocketServer.WatchAction.pushInboundSentinel]
  ∧ (SocketServer.try_quit processTable pid st).returned = true := by
  cases hsoc : st.socConnection <;>
    simp [SocketServer.try_quit, h, hsoc]

/-- Witness for C3 at a concrete poll: process table [1, 2, 3], monitored pid
99 absent, an accepted connection present, empty queues. -/
theorem claim_C3_watchdog_witness :
    (99 : Nat) ∉ [1, 2, 3]
  ∧ ((SocketServer.try_quit [1, 2, 3] 99 ⟨false, [], [], true⟩).state.quitEvent = true
    ∧ (SocketServer.try_quit [1, 2, 3] 99 ⟨false, [], [], true⟩).state.responseQueue =
        [] ++ [PyVal.pystr "quit"]
    ∧ (SocketServer.try_quit [1, 2, 3] 99 ⟨false, [], [], true⟩).state.inboundQueue =
        [] ++ [SMsg.sentinel]
    ∧ (SocketServer.try_quit [1, 2, 3] 99 ⟨false, [], [], true⟩).state.socConnection = false
    ∧ (SocketServer.try_quit [1, 2, 3] 99 ⟨false, [], [], true⟩).trace =
        [SocketServer.WatchAction.setQuit, SocketServer.WatchAction.pushResponseSentinel]
          ++ (if (⟨false, [], [], true⟩ : SocketServer.QuitState).socConnection then
                [SocketServer.WatchAction.closeConnection] else [])
          ++ [SocketServer.WatchAction.pushInboundSentinel]
    ∧ (SocketServer.try_quit [1, 2, 3] 99 ⟨false, [], [], true⟩).returned = true) := by
  exact ⟨by decide, claim_C3_watchdog [1, 2, 3] 99 ⟨false, [], [], true⟩ (by decide)⟩

/-- C4 counterexample: the SERVER side worker does not recognize the
sentinel.  At the concrete reachable input where the quit event is already
set (the watchdog sets it before pushing the sentinel) and the inbound queue
holds exactly the sentinel, the dequeued sentinel IS forwarded to the routing
callback, refuting the claim that a worker that dequeues the sentinel exits
without forwarding it. -/
theorem claim_C4_counterexample :
    (SimpleEnqueueSocketServer.workerRun true true [SMsg.sentinel]).calls = [SMsg.sentinel]
  ∧ SMsg.sentinel ∈ (SimpleEnqueueSocketServer.workerRun true true [SMsg.sentinel]).calls := by
  decide

/-- C4 amended: the CLIENT side worker behaves as claimed: it forwards every
ordinary item in order and, on dequeuing the sentinel, sets the quit event
and exits its loop without forwarding the sentinel and without consuming the
rest of the queue.  The SERVER side worker does not inspect dequeued items:
it forwards every item, the sentinel included, to the routing callback (whose
failure is caught), and exits after processing an item exactly when the quit
event is observed set, which the watchdog guarantees by setting it before
pushing the sentinel; with the quit event unset it forwards every queued item
and keeps looping.  Neither worker re-enters its loop after exiting. -/
theorem claim_C4_workers (pre : List Nat) (post : List CMsg) (m : SMsg)
    (rest : List SMsg) :
    SimpleEnqueueSocketClient.workerRun false (pre.map CMsg.msg ++ CMsg.sentinel :: post) =
      ⟨RunEnd.exited, true, pre.map CMsg.msg, post⟩
  ∧ SimpleEnqueueSocketServer.workerRun true true (m :: rest) =
      ⟨RunEnd.exited, [m], rest⟩
  ∧ (SimpleEnqueueSocketServer.workerRun true false rest).calls = rest := by
  refine ⟨?_, rfl, ?_⟩
  · induction pre with
    | nil => rfl
    | cons p ps ih => simp [SimpleEnqueueSocketClient.workerRun, ih]
  · induction rest with
    | nil => rfl
    | cons x xs ih => simp [SimpleEnqueueSocketServer.workerRun, ih]

/-- C5: an outbound client message whose send raises BrokenPipeError is
appended to the failed message list (not dropped), the connection flag is set
to disconnected, and the socket is reinitialized; the message remains in the
failed message list afterwards. -/
theorem claim_C5_broken_pipe (outcome : Nat → SendOutcome)
    (st : SimpleEnqueueSocketClient.ClientState) (message : Nat)
    (h : outcome message = SendOutcome.brokenPipe) :
    SimpleEnqueueSocketClient.callback outcome st message =
      { st with
          failedMessages := st.failedMessages ++ [message],
          hasConnection := false,
          socketInits := st.socketInits + 1 }
  ∧ message ∈ (SimpleEnqueueSocketClient.callback outcome st message).failedMessages := by
  refine ⟨?_, ?_⟩ <;> simp [SimpleEnqueueSocketClient.callback, h]

/-- Witness for C5: message 7 sent while the pipe is broken, starting from a
connected client with no failed messages. -/
theorem claim_C5_broken_pipe_witness :
    (fun _ => SendOutcome.brokenPipe) 7 = SendOutcome.brokenPipe
  ∧ (SimpleEnqueueSocketClient.callback (fun _ => SendOutcome.brokenPipe)
        ⟨[], true, 0, [], 0⟩ 7 = ⟨[7], false, 1, [], 0⟩
    ∧ 7 ∈ (SimpleEnqueueSocketClient.callback (fun _ => SendOutcome.brokenPipe)
        ⟨[], true, 0, [], 0⟩ 7).failedMessages) := by
  exact ⟨rfl, claim_C5_broken_pipe (fun _ => SendOutcome.brokenPipe)
    ⟨[], true, 0, [], 0⟩ 7 rfl⟩

/-- C9: an outbound client message whose serialization or send raises any
exception other than BrokenPipeError is caught and logged, and the callback
returns with the message neither on the wire nor appended to the failed
message list; the connection flag and the socket are left unchanged. -/
theorem claim_C9_other_error (outcome : Nat → SendOutcome)
    (st : SimpleEnqueueSocketClient.ClientState) (message : Nat)
    (h : outcome message = SendOutcome.otherError) :
    (SimpleEnqueueSocketClient.callback outcome st message).wire = st.wire
  ∧ (SimpleEnqueueSocketClient.callback outcome st message).failedMessages =
      st.failedMessages
  ∧ (SimpleEnqueueSocketClient.callback outcome st message).hasConnection =
      st.hasConnection
  ∧ (SimpleEnqueueSocketClient.callback outcome st message).socketInits = st.socketInits
  ∧ (SimpleEnqueueSocketClient.callback outcome st message).loggedCallbackErrors =
      st.loggedCallbackErrors + 1 := by
  simp [SimpleEnqueueSocketClient.callback, h]

/-- Witness for C9: message 9 whose json.dumps raises, starting from a
connected client: nothing changes except one logged error. -/
theorem claim_C9_other_error_witness :
    (fun _ => SendOutcome.otherError) 9 = SendOutcome.otherError
  ∧ ((SimpleEnqueueSocketClient.callback (fun _ => SendOutcome.otherError)
        ⟨[4], true, 2, [3], 0⟩ 9).wire = [3]
    ∧ (SimpleEnqueueSocketClient.callback (fun _ => SendOutcome.otherError)
        ⟨[4], true, 2, [3], 0⟩ 9).failedMessages = [4]
    ∧ (SimpleEnqueueSocketClient.callback (fun _ => SendOutcome.otherError)
        ⟨[4], true, 2, [3], 0⟩ 9).hasConnection = (true : Bool)
    ∧ (SimpleEnqueueSocketClient.callback (fun _ => SendOutcome.otherError)
        ⟨[4], true, 2, [3], 0⟩ 9).socketInits = 2
    ∧ (SimpleEnqueueSocketClient.callback (fun _ => SendOutcome.otherError)
        ⟨[4], true, 2, [3], 0⟩ 9).loggedCallbackErrors = 0 + 1) := by
  exact ⟨rfl, claim_C9_other_error (fun _ => SendOutcome.otherError)
    ⟨[4], true, 2, [3], 0⟩ 9 rfl⟩

/-- C2: evaluation of retry_messages at the failing inputs.  With the failed
message list [1, 2] and every resend succeeding, the loop removes 1 before
sending it and, iterating over the list it mutates, skips 2 entirely: 2
remains queued and is never resent, so the messages are NOT all resent in
original order.  With the list [5] and a resend that fails with an exception
other than BrokenPipeError, 5 was already removed before the send, so it is
dropped instead of remaining in the list.  Both contradict the claimed
behavior, which the source itself marks as unimplemented (the docstring of
retry_messages reads TODO: implement this function). -/
theorem claim_C2_retry_eval :
    (SimpleEnqueueSocketClient.retry_messages (fun _ => SendOutcome.success)
        ⟨[1, 2], true, 0, [], 0⟩).failedMessages = [2]
  ∧ (SimpleEnqueueSocketClient.retry_messages (fun _ => SendOutcome.success)
        ⟨[1, 2], true, 0, [], 0⟩).wire = [1]
  ∧ (SimpleEnqueueSocketClient.retry_messages (fun _ => SendOutcome.otherError)
        ⟨[5], true, 0, [], 0⟩).failedMessages = []
  ∧ (SimpleEnqueueSocketClient.retry_messages (fun _ => SendOutcome.otherError)
        ⟨[5], true, 0, [], 0⟩).wire = [] := by
  decide

/-- C6 counterexample: the response queue holds the bytes result [111]
pushed by the dispatcher (exactly what the backend of the C1 witness
returns).  The claim says this value is wrapped, serialized and written,
with any send failure logged and the message dropped.  Instead json.dumps,
which stands outside the try block, raises an uncaught TypeError: the sender
thread crashes, nothing reaches the wire, nothing is logged, and the loop
does not terminate through the sentinel. -/
theorem claim_C6_counterexample :
    (StableDiffusionRequestQueueWorker.response_queue_worker (fun _ => true) false
        [PyVal.pybytes [111]] ⟨[], [], []⟩).outcome =
      StableDiffusionRequestQueueWorker.SenderEnd.crashed
  ∧ (StableDiffusionRequestQueueWorker.response_queue_worker (fun _ => true) false
        [PyVal.pybytes [111]] ⟨[], [], []⟩).state.wire = []
  ∧ (StableDiffusionRequestQueueWorker.response_queue_worker (fun _ => true) false
        [PyVal.pybytes [111]] ⟨[], [], []⟩).state.loggedFailures = []
  ∧ StableDiffusionRequestQueueWorker.SenderEnd.crashed ≠
      StableDiffusionRequestQueueWorker.SenderEnd.exited := by
  refine ⟨rfl, rfl, rfl, by decide⟩

/-- C6 amended: for every value drained from the response queue, a value
equal to the sentinel string "quit" terminates the sender loop without
consuming the rest of the queue; every other JSON SERIALIZABLE result is
wrapped as the "response" JSON object, serialized, and a send on the
accepted connection is attempted exactly once: a successful payload reaches
the wire, a failed payload is logged and dropped, and the retry list is
never touched (no server side retry).  A result json.dumps cannot serialize,
in particular a bytes result, raises an uncaught TypeError (the dumps call
stands outside the try block): the sender thread crashes, nothing is sent or
logged, and the rest of the queue is never drained. -/
theorem claim_C6_response_sender (sendOk : String → Bool) (vs rest : List PyVal)
    (st : StableDiffusionRequestQueueWorker.SenderState) (bad : PyVal)
    (h1 : ∀ v ∈ vs, StableDiffusionRequestQueueWorker.isQuitValue v = false)
    (h2 : ∀ v ∈ vs, (StableDiffusionRequestQueueWorker.serializeResponse v).isSome = true)
    (hbad : StableDiffusionRequestQueueWorker.serializeResponse bad = none) :
    StableDiffusionRequestQueueWorker.response_queue_worker sendOk false
        (vs ++ PyVal.pystr "quit" :: rest) st =
      ⟨⟨st.wire ++
          (vs.filterMap StableDiffusionRequestQueueWorker.serializeResponse).filter sendOk,
        st.loggedFailures ++
          (vs.filterMap StableDiffusionRequestQueueWorker.serializeResponse).filter
            (fun p => !(sendOk p)),
        st.failedMessages⟩, rest, StableDiffusionRequestQueueWorker.SenderEnd.exited⟩
  ∧ StableDiffusionRequestQueueWorker.response_queue_worker sendOk false
        (bad :: rest) st =
      ⟨st, rest, StableDiffusionRequestQueueWorker.SenderEnd.crashed⟩ := by
  constructor
  · clear hbad
    revert h1 h2
    induction vs generalizing st with
    | nil =>
      intro h1 h2
      simp [StableDiffusionRequestQueueWorker.response_queue_worker,
        StableDiffusionRequestQueueWorker.isQuitValue]
    | cons v vs ih =>
      intro h1 h2
      have hq := h1 v (List.mem_cons_self v vs)
      have hsm := h2 v (List.mem_cons_self v vs)
      obtain ⟨j, hj⟩ : ∃ j, StableDiffusionRequestQueueWorker.pyToJson v = some j := by
        cases hpj : StableDiffusionRequestQueueWorker.pyToJson v with
        | none =>
          simp only [StableDiffusionRequestQueueWorker.serializeResponse, hpj] at hsm
          simp at hsm
        | some j => exact ⟨j, rfl⟩
      have hser : StableDiffusionRequestQueueWorker.serializeResponse v =
          some (jsonSerialize (StableDiffusionRequestQueueWorker.wrapResponse j)) := by
        simp [StableDiffusionRequestQueueWorker.serializeResponse, hj]
      have h1x := fun w hw => h1 w (List.mem_cons_of_mem v hw)
      have h2x := fun w hw => h2 w (List.mem_cons_of_mem v hw)
      have ihx := fun s => ih s h1x h2x
      cases hs : sendOk (jsonSerialize (StableDiffusionRequestQueueWorker.wrapResponse j)) <;>
        simp [StableDiffusionRequestQueueWorker.response_queue_worker, hq, hj, hs,
          ihx, hser, List.filterMap_cons, List.filter_cons]
  · have hnone : StableDiffusionRequestQueueWorker.pyToJson bad = none := by
      cases hpj : StableDiffusionRequestQueueWorker.pyToJson bad with
      | none => rfl
      | some j =>
        simp only [StableDiffusionRequestQueueWorker.serializeResponse, hpj] at hbad
        simp at hbad
    have hqb : StableDiffusionRequestQueueWorker.isQuitValue bad = false := by
      cases bad with
      | pybytes bs => rfl
      | pynone => simp [StableDiffusionRequestQueueWorker.pyToJson] at hnone
      | pystr s => simp [StableDiffusionRequestQueueWorker.pyToJson] at hnone
      | pyint n => simp [StableDiffusionRequestQueueWorker.pyToJson] at hnone
    simp [StableDiffusionRequestQueueWorker.response_queue_worker, hqb, hnone]

/-- Witness for C6 at concrete queue contents: the serializable results
"ok" and 3 followed by the sentinel, every send accepted, and the bytes
result [1] as the unserializable value: the two payloads are attempted in
order and reach the wire, the sentinel exits the loop, and the bytes result
crashes the sender. -/
theorem claim_C6_response_sender_witness :
    (∀ v ∈ [PyVal.pystr "ok", PyVal.pyint 3],
        StableDiffusionRequestQueueWorker.isQuitValue v = false)
  ∧ (∀ v ∈ [PyVal.pystr "ok", PyVal.pyint 3],
        (StableDiffusionRequestQueueWorker.serializeResponse v).isSome = true)
  ∧ StableDiffusionRequestQueueWorker.serializeResponse (PyVal.pybytes [1]) = none
  ∧ (StableDiffusionRequestQueueWorker.response_queue_worker (fun _ => true) false
        ([PyVal.pystr "ok", PyVal.pyint 3] ++ PyVal.pystr "quit" :: []) ⟨[], [], []⟩ =
      ⟨⟨[] ++
          (([PyVal.pystr "ok", PyVal.pyint 3]).filterMap
            StableDiffusionRequestQueueWorker.serializeResponse).filter (fun _ => true),
        [] ++
          (([PyVal.pystr "ok", PyVal.pyint 3]).filterMap
            StableDiffusionRequestQueueWorker.serializeResponse).filter
              (fun p => !((fun _ => true) p)),
        []⟩, [], StableDiffusionRequestQueueWorker.SenderEnd.exited⟩
    ∧ StableDiffusionRequestQueueWorker.response_queue_worker (fun _ => true) false
        (PyVal.pybytes [1] :: []) ⟨[], [], []⟩ =
      ⟨⟨[], [], []⟩, [], StableDiffusionRequestQueueWorker.SenderEnd.crashed⟩) := by
  have h1 : ∀ v ∈ [PyVal.pystr "ok", PyVal.pyint 3],
      StableDiffusionRequestQueueWorker.isQuitValue v = false := by decide
  have h2 : ∀ v ∈ [PyVal.pystr "ok", PyVal.pyint 3],
      (StableDiffusionRequestQueueWorker.serializeResponse v).isSome = true := by decide
  exact ⟨h1, h2, rfl, claim_C6_response_sender (fun _ => true)
    [PyVal.pystr "ok", PyVal.pyint 3] [] ⟨[], [], []⟩ (PyVal.pybytes [1]) h1 h2 rfl⟩

/-- C7 counterexample: two distinct connection instances, 0 and 1, of the
same connection class, starting from an empty registry.  Registering thread 7
through instance 0 changes the registry observed by instance 1, because the
registry is the shared class attribute, refuting the claimed isolation. -/
theorem claim_C7_counterexample :
    (0 : Nat) ≠ 1
  ∧ Connection.threadsOf (Connection.start_thread ⟨[]⟩ 0 7) 1 ≠
      Connection.threadsOf (⟨[]⟩ : Connection.ClassState) 1 := by
  decide

/-- C7 amended: the thread registry is class level shared state, not per
instance state: threads = [] is declared on the connection class and
start_thread appends through self.threads without any per instance
assignment, so registering a worker thread on ANY instance appends to the one
shared list observed by every instance of the class, and stop() on any
instance joins every thread in that shared list, including threads registered
by other instances. -/
theorem claim_C7_shared_registry (env : Connection.ClassState) (a b ta tb : Nat) :
    Connection.threadsOf (Connection.start_thread env a ta) b =
      Connection.threadsOf env b ++ [ta]
  ∧ Connection.threadsOf
        (Connection.start_thread (Connection.start_thread env a ta) b tb) a =
      Connection.threadsOf env a ++ [ta, tb]
  ∧ Connection.stopJoins (Connection.start_thread env a ta) b =
      Connection.threadsOf env b ++ [ta] := by
  refine ⟨rfl, ?_, rfl⟩
  simp [Connection.threadsOf, Connection.start_thread]
